import Mathlib

/-!
Shallow embedding of the workflow core of the SuperAI backend
(`src/backend/app/models/workflow.py`, `src/backend/app/services/workflow_service.py`,
`src/backend/app/services/n8n_service.py`).

Modelling conventions:
* `datetime` values are integers (seconds); `total_seconds()` of a difference of
  integer-second datetimes is the integer difference (the Python value is a float
  such as `45.0`, modelled as the integer `45`).
* Free-form JSON dictionaries (`config`, `trigger_config`, parameter bags of n8n
  nodes) are association lists `List (String × String)`; nested parameter bags
  are flattened to dotted keys, keeping the exact keys and defaults of the source.
* `uuid4` ids and `datetime.utcnow()` are passed in as explicit arguments.
* MongoDB collections are Lean lists; `find_one` is `List.find?` on the same
  filter, `update_one`/`delete_one` act on the first matching element, and
  `delete_many`/`$pull` are `List.filter`.
* `httpx` calls to the n8n engine are modelled by explicit arguments describing
  the engine's answer (`Option String` for an id-returning call that may raise,
  `FetchResult` for a status fetch).
-/

namespace SuperAI

/-- `WorkflowStatus` enum of `models/workflow.py`. -/
inductive WorkflowStatus where
  | draft
  | active
  | paused
  | error
deriving DecidableEq, Repr

/-- `TriggerType` enum of `models/workflow.py`. -/
inductive TriggerType where
  | manual
  | webhook
  | schedule
  | event
deriving DecidableEq, Repr

/-- `ActionType` enum of `models/workflow.py`. -/
inductive ActionType where
  | api_call
  | ai_process
  | data_transform
  | notification
  | integration_action
deriving DecidableEq, Repr

/-- `ExecutionStatus` enum of `models/workflow.py`. -/
inductive ExecutionStatus where
  | pending
  | running
  | success
  | failed
  | cancelled
deriving DecidableEq, Repr

/-- `WorkflowStep` pydantic model of `models/workflow.py` (lines 32-50).
The pydantic model declares no value constraints: `timeout_seconds`,
`retry_count`, `order` are plain ints, `on_error` a plain string. -/
structure WorkflowStep where
  id : String
  name : String
  action_type : ActionType
  integration_id : Option String := none
  config : List (String × String) := []
  input_mapping : List (String × String) := []
  output_mapping : List (String × String) := []
  timeout_seconds : Int := 300
  retry_count : Int := 0
  on_error : String := "stop"
  order : Int := 0
  depends_on : List String := []
deriving DecidableEq, Repr

/-- `Workflow` pydantic model of `models/workflow.py` (lines 52-80). -/
structure Workflow where
  id : String
  user_id : String
  team_id : String
  name : String
  description : Option String := none
  trigger_type : TriggerType
  trigger_config : List (String × String) := []
  steps : List WorkflowStep := []
  n8n_workflow_id : Option String := none
  n8n_webhook_id : Option String := none
  status : WorkflowStatus := WorkflowStatus.draft
  is_template : Bool := false
  tags : List String := []
  max_concurrent_executions : Int := 1
  execution_timeout_minutes : Int := 30
  created_at : Int := 0
  updated_at : Int := 0
deriving DecidableEq, Repr

/-- `WorkflowExecution` pydantic model of `models/workflow.py` (lines 82-102). -/
structure ExecRecord where
  id : String
  workflow_id : String
  user_id : String
  status : ExecutionStatus := ExecutionStatus.pending
  trigger_data : String := ""
  step_results : String := ""
  output_data : String := ""
  error_message : Option String := none
  started_at : Int := 0
  completed_at : Option Int := none
  duration_seconds : Option Int := none
  n8n_execution_id : Option String := none
deriving DecidableEq, Repr

/-- `WorkflowCreate` pydantic model of `models/workflow.py`. -/
structure WorkflowCreate where
  name : String
  description : Option String := none
  trigger_type : TriggerType
  trigger_config : List (String × String) := []
deriving DecidableEq, Repr

/-- `WorkflowUpdate` pydantic model of `models/workflow.py`: all fields
optional; `update_workflow` applies exactly the non-`None` ones. -/
structure WorkflowUpdate where
  name : Option String := none
  description : Option String := none
  trigger_config : Option (List (String × String)) := none
  status : Option WorkflowStatus := none
deriving DecidableEq, Repr

/-- Python `dict.get(key, default)` on an association-list dictionary. -/
def cfgGet (cfg : List (String × String)) (key dflt : String) : String :=
  match cfg.find? (fun p => p.1 == key) with
  | some p => p.2
  | none => dflt

/-- Python truthiness test `not x` for an `Optional[str]`:
`None` and the empty string are falsy. -/
def isFalsyStr : Option String → Bool
  | none => true
  | some s => s == ""

/-- One n8n node as built by `N8NService`: id, display name, type tag,
type version (kept as the literal from the source), position, and the
flattened parameter bag. -/
structure N8NNode where
  id : String
  name : String
  type : String
  typeVersion : String
  positionX : Int
  positionY : Int
  parameters : List (String × String)
deriving DecidableEq, Repr

/-- `N8NService._create_trigger_node` (`n8n_service.py` lines 79-117):
webhook and schedule triggers have dedicated shapes, every other trigger
type falls through to the manual trigger. -/
def create_trigger_node (trigger_type : TriggerType)
    (trigger_config : List (String × String)) : N8NNode :=
  match trigger_type with
  | TriggerType.webhook =>
      { id := "trigger-webhook"
        name := "Webhook Trigger"
        type := "n8n-nodes-base.webhook"
        typeVersion := "1"
        positionX := 250
        positionY := 300
        parameters :=
          [("httpMethod", cfgGet trigger_config "method" "POST"),
           ("path", cfgGet trigger_config "path" "webhook"),
           ("responseMode", "responseNode")] }
  | TriggerType.schedule =>
      { id := "trigger-schedule"
        name := "Schedule Trigger"
        type := "n8n-nodes-base.cron"
        typeVersion := "1"
        positionX := 250
        positionY := 300
        parameters :=
          [("rule.interval", cfgGet trigger_config "interval" "0 9 * * *")] }
  | _ =>
      { id := "trigger-manual"
        name := "Manual Trigger"
        type := "n8n-nodes-base.manualTrigger"
        typeVersion := "1"
        positionX := 250
        positionY := 300
        parameters := [] }

/-- `N8NService._create_integration_node` (`n8n_service.py` lines 178-226):
dedicated slack and github shapes chosen by `config.integration_type`,
generic HTTP request otherwise. -/
def create_integration_node (step : WorkflowStep) (node_id : String)
    (position_y : Int) : N8NNode :=
  let integration_type := cfgGet step.config "integration_type" ""
  if integration_type == "slack" then
    { id := node_id
      name := step.name
      type := "n8n-nodes-base.slack"
      typeVersion := "2.1"
      positionX := 450
      positionY := position_y
      parameters :=
        [("authentication", "oAuth2"),
         ("resource", "message"),
         ("operation", cfgGet step.config "operation" "post"),
         ("channel", cfgGet step.config "channel" ""),
         ("text", cfgGet step.config "text" "")] }
  else if integration_type == "github" then
    { id := node_id
      name := step.name
      type := "n8n-nodes-base.github"
      typeVersion := "1.2"
      positionX := 450
      positionY := position_y
      parameters :=
        [("authentication", "oAuth2"),
         ("resource", "issue"),
         ("operation", cfgGet step.config "operation" "create"),
         ("owner", cfgGet step.config "owner" ""),
         ("repository", cfgGet step.config "repository" ""),
         ("title", cfgGet step.config "title" ""),
         ("body", cfgGet step.config "body" "")] }
  else
    { id := node_id
      name := step.name
      type := "n8n-nodes-base.httpRequest"
      typeVersion := "4.1"
      positionX := 450
      positionY := position_y
      parameters :=
        [("url", cfgGet step.config "url" ""),
         ("requestMethod", cfgGet step.config "method" "POST")] }

/-- `N8NService._create_step_node` (`n8n_service.py` lines 119-176):
one n8n node per step, selected by `action_type`; the node name is the
step's name, the node id is `step-<index>-<step id>`. -/
def create_step_node (step : WorkflowStep) (index : Nat) : N8NNode :=
  let node_id := "step-" ++ toString index ++ "-" ++ step.id
  let position_y : Int := 300 + ((Int.ofNat index) + 1) * 180
  match step.action_type with
  | ActionType.api_call =>
      { id := node_id
        name := step.name
        type := "n8n-nodes-base.httpRequest"
        typeVersion := "4.1"
        positionX := 450
        positionY := position_y
        parameters :=
          [("url", cfgGet step.config "url" ""),
           ("requestMethod", cfgGet step.config "method" "GET"),
           ("sendHeaders", "true"),
           ("headerParameters", cfgGet step.config "headers" ""),
           ("sendBody",
             toString (["POST", "PUT", "PATCH"].contains
               (cfgGet step.config "method" "GET"))),
           ("bodyParameters", cfgGet step.config "body" "")] }
  | ActionType.integration_action =>
      create_integration_node step node_id position_y
  | ActionType.ai_process =>
      { id := node_id
        name := step.name
        type := "n8n-nodes-base.openAi"
        typeVersion := "1.3"
        positionX := 450
        positionY := position_y
        parameters :=
          [("model", cfgGet step.config "model" "gpt-4"),
           ("prompt", cfgGet step.config "prompt" "")] }
  | _ =>
      { id := node_id
        name := step.name
        type := "n8n-nodes-base.function"
        typeVersion := "1"
        positionX := 450
        positionY := position_y
        parameters :=
          [("functionCode", cfgGet step.config "code" "return items;")] }

/-- The `connections` dictionary of the n8n graph: source node name to the
ordered list of destination node names (the source stores each destination
as an object in `connections[src]["main"][0]`; we keep the names). -/
abbrev Connections := List (String × List String)

/-- Appending one destination into the connections dictionary, exactly as
`connections[previous_node]["main"][0].append(...)` after the
`if previous_node not in connections` initialisation: append into the
existing entry, or add a new entry at the end (dict insertion order). -/
def addConn (conns : Connections) (src dst : String) : Connections :=
  match conns with
  | [] => [(src, [dst])]
  | (k, ds) :: rest =>
      if k == src then (k, ds ++ [dst]) :: rest
      else (k, ds) :: addConn rest src dst

/-- The loop body of `_convert_to_n8n_format` (`n8n_service.py` lines 51-66):
walks `workflow.steps` in list order with `enumerate`, appending one node per
step and one connection from the previous node. -/
def buildChain : List WorkflowStep → Nat → String → List N8NNode → Connections →
    List N8NNode × Connections
  | [], _, _, nodes, conns => (nodes, conns)
  | step :: rest, i, previous_node, nodes, conns =>
      let step_node := create_step_node step i
      buildChain rest (i + 1) step_node.name (nodes ++ [step_node])
        (addConn conns previous_node step_node.name)

/-- The n8n workflow payload built by `_convert_to_n8n_format`. -/
structure N8NWorkflowData where
  name : String
  active : Bool
  nodes : List N8NNode
  connections : Connections
  executionOrder : String
  tags : List String
deriving DecidableEq, Repr

/-- `N8NService._convert_to_n8n_format` (`n8n_service.py` lines 41-77). -/
def convert_to_n8n_format (w : Workflow) : N8NWorkflowData :=
  let trigger_node := create_trigger_node w.trigger_type w.trigger_config
  let built := buildChain w.steps 0 trigger_node.name [trigger_node] []
  { name := w.name
    active := true
    nodes := built.1
    connections := built.2
    executionOrder := "v1"
    tags := w.tags }

/-- The n8n answer to `GET /api/v1/executions/{id}` as used by
`get_execution_status`: the `status` string, the opaque `data` payload,
the `error` string, and the optional `finishedAt` timestamp. -/
structure N8NExecutionResp where
  status : String
  data : String := ""
  error : String := ""
  finishedAt : Option Int := none
deriving DecidableEq, Repr

/-- Outcome of the engine status fetch: a parsed response, or any raised
exception (network error, non-2xx, parse failure) with its message. -/
inductive FetchResult where
  | ok (resp : N8NExecutionResp)
  | err (msg : String)
deriving DecidableEq, Repr

/-- The `status_mapping` dictionary of `get_execution_status`
(`n8n_service.py` lines 292-298). -/
def status_mapping : List (String × ExecutionStatus) :=
  [("running", ExecutionStatus.running),
   ("success", ExecutionStatus.success),
   ("failed", ExecutionStatus.failed),
   ("canceled", ExecutionStatus.cancelled),
   ("waiting", ExecutionStatus.pending)]

/-- `status_mapping.get(n8n_execution["status"], ExecutionStatus.FAILED)`
(`n8n_service.py` line 300). -/
def statusMap (s : String) : ExecutionStatus :=
  match status_mapping.find? (fun p => p.1 == s) with
  | some p => p.2
  | none => ExecutionStatus.failed

/-- Terminal local execution statuses (`success`, `failed`, `cancelled`). -/
def isTerminal : ExecutionStatus → Bool
  | ExecutionStatus.success => true
  | ExecutionStatus.failed => true
  | ExecutionStatus.cancelled => true
  | _ => false

/-- The `$set` update built and written by `get_execution_status`
(`n8n_service.py` lines 302-317): status, step results and error message
are always written; `completed_at` and `duration_seconds` are written only
when the engine reports a `finishedAt` (the `if execution.started_at`
guard is always true, `started_at` being a non-optional field). -/
def applyReconcile (e : ExecRecord) (r : N8NExecutionResp) : ExecRecord :=
  let base := { e with
    status := statusMap r.status
    step_results := r.data
    error_message := some r.error }
  match r.finishedAt with
  | some f =>
      { base with
        completed_at := some f
        duration_seconds := some (f - e.started_at) }
  | none => base

/-- The three return-dictionary shapes of `get_execution_status`: the
missing-engine-id early return (line 283), the normal return (lines
319-325, whose `completed_at` is `update_data.get("completed_at")`, i.e. the
engine's `finishedAt`), and the exception handler's return (line 327). -/
inductive StatusReport where
  | noEngineId (status : ExecutionStatus) (error : String)
  | fetched (status : ExecutionStatus) (step_results error_message : String)
      (started_at : Int) (completed_at : Option Int)
  | fetchFailed (status : ExecutionStatus) (error : String)
deriving DecidableEq, Repr

/-- `N8NService.get_execution_status` (`n8n_service.py` lines 274-327) on an
execution record that exists, given the engine's answer `fetch`: returns the
updated stored record and the report dictionary. On a missing engine id or a
fetch exception the stored record is not touched. -/
def get_execution_status (e : ExecRecord) (fetch : FetchResult) :
    ExecRecord × StatusReport :=
  if isFalsyStr e.n8n_execution_id then
    (e, StatusReport.noEngineId e.status "No n8n execution ID")
  else
    match fetch with
    | FetchResult.err msg => (e, StatusReport.fetchFailed ExecutionStatus.failed msg)
    | FetchResult.ok r =>
        (applyReconcile e r,
         StatusReport.fetched (statusMap r.status) r.data r.error
           e.started_at r.finishedAt)

/-- The persisted state the workflow services act on: the `workflows` and
`workflow_executions` MongoDB collections. -/
structure DB where
  workflows : List Workflow := []
  workflow_executions : List ExecRecord := []
deriving DecidableEq, Repr

/-- `db.workflows.find_one({"id": workflow_id, "user_id": user_id})`. -/
def find_workflow (db : DB) (workflow_id user_id : String) : Option Workflow :=
  db.workflows.find? (fun x => x.id == workflow_id && x.user_id == user_id)

/-- `update_one`: rewrite the first element matching the filter, returning
whether a document matched (the source's `matched_count`/`modified_count`
tests; since every update also sets `updated_at`, a matched document counts
as modified). -/
def updateFirst (p : Workflow → Bool) (f : Workflow → Workflow) :
    List Workflow → Bool × List Workflow
  | [] => (false, [])
  | x :: rest =>
      if p x then (true, f x :: rest)
      else
        let r := updateFirst p f rest
        (r.1, x :: r.2)

/-- `delete_one`: remove the first element matching the filter, returning
whether one was deleted (`deleted_count > 0`). -/
def removeFirst (p : Workflow → Bool) : List Workflow → Bool × List Workflow
  | [] => (false, [])
  | x :: rest =>
      if p x then (true, rest)
      else
        let r := removeFirst p rest
        (r.1, x :: r.2)

/-- `WorkflowService.create_workflow` (`workflow_service.py` lines 16-40):
builds a `Workflow` from the create payload (status defaulting to `draft`)
and inserts it; `fresh` and `now` stand for `uuid4` and `utcnow`. -/
def create_workflow (db : DB) (user_id team_id : String) (c : WorkflowCreate)
    (fresh : String) (now : Int) : Workflow × DB :=
  let w : Workflow :=
    { id := fresh
      user_id := user_id
      team_id := team_id
      name := c.name
      description := c.description
      trigger_type := c.trigger_type
      trigger_config := c.trigger_config
      created_at := now
      updated_at := now }
  (w, { db with workflows := db.workflows ++ [w] })

/-- The `$set` dictionary of `WorkflowService.update_workflow`
(`workflow_service.py` lines 67-75): exactly the non-`None` fields of the
`WorkflowUpdate`, plus `updated_at`. -/
def applyWorkflowUpdate (u : WorkflowUpdate) (now : Int) (x : Workflow) : Workflow :=
  { x with
    name := u.name.getD x.name
    description := match u.description with
      | some d => some d
      | none => x.description
    trigger_config := u.trigger_config.getD x.trigger_config
    status := u.status.getD x.status
    updated_at := now }

/-- `WorkflowService.update_workflow` (`workflow_service.py` lines 67-94):
`update_one` on the `(id, user_id)` filter; raises `Workflow not found`
when nothing matched. -/
def update_workflow (db : DB) (workflow_id user_id : String)
    (u : WorkflowUpdate) (now : Int) : Except String Unit × DB :=
  let r := updateFirst (fun x => x.id == workflow_id && x.user_id == user_id)
    (applyWorkflowUpdate u now) db.workflows
  if r.1 then (Except.ok (), { db with workflows := r.2 })
  else (Except.error "Workflow not found", db)

/-- `WorkflowService.add_workflow_step` (`workflow_service.py` lines 96-115):
loads the workflow, overwrites the incoming step's `order` with the current
step count, and `$push`es the step; no validation of the step is performed. -/
def add_workflow_step (db : DB) (workflow_id user_id : String)
    (step : WorkflowStep) (now : Int) : Except String WorkflowStep × DB :=
  match find_workflow db workflow_id user_id with
  | none => (Except.error "Workflow not found", db)
  | some w =>
      let step' := { step with order := (w.steps.length : Int) }
      let r := updateFirst (fun x => x.id == workflow_id && x.user_id == user_id)
        (fun x => { x with steps := x.steps ++ [step'], updated_at := now })
        db.workflows
      (Except.ok step', { db with workflows := r.2 })

/-- `WorkflowService.remove_workflow_step` (`workflow_service.py` lines
134-144): `$pull`s the step with the given id out of the `steps` array of the
matching workflow; the remaining steps keep their `order` values unchanged. -/
def remove_workflow_step (db : DB) (workflow_id user_id step_id : String)
    (now : Int) : Bool × DB :=
  let r := updateFirst (fun x => x.id == workflow_id && x.user_id == user_id)
    (fun x => { x with
      steps := x.steps.filter (fun s => !(s.id == step_id))
      updated_at := now })
    db.workflows
  (r.1, { db with workflows := r.2 })

/-- `WorkflowService.deploy_workflow` (`workflow_service.py` lines 146-192).
`engine = some nid` models `n8n_service.create_n8n_workflow` returning the
engine workflow id (creation plus activation succeeded); `engine = none`
models it raising. On success the workflow is updated (filter `id` only, as
in the source) with the engine id and status `active`; on failure the status
is set to `error` and the exception is re-raised. The read-only webhook-URL
lookup of the success path is omitted (it performs no writes). -/
def deploy_workflow (db : DB) (workflow_id user_id : String)
    (engine : Option String) (now : Int) : Except String String × DB :=
  match find_workflow db workflow_id user_id with
  | none => (Except.error "Workflow not found", db)
  | some w =>
      if w.status == WorkflowStatus.active then
        (Except.error "Workflow is already active", db)
      else
        match engine with
        | some nid =>
            let r := updateFirst (fun x => x.id == workflow_id)
              (fun x => { x with
                n8n_workflow_id := some nid
                status := WorkflowStatus.active
                updated_at := now })
              db.workflows
            (Except.ok nid, { db with workflows := r.2 })
        | none =>
            let r := updateFirst (fun x => x.id == workflow_id)
              (fun x => { x with status := WorkflowStatus.error, updated_at := now })
              db.workflows
            (Except.error "Failed to create n8n workflow",
             { db with workflows := r.2 })

/-- `N8NService.execute_workflow` (`n8n_service.py` lines 238-272): re-loads
the workflow by `id` only, requires an `n8n_workflow_id`, then (engine
trigger modelled by `engine = some n8n_execution_id`, a raise by `none`)
inserts a new execution record with status `running`, `started_at = now` and
the engine execution id, returning the new record's id (`fresh`). -/
def n8n_execute_workflow (db : DB) (workflow_id : String) (trigger_data : String)
    (engine : Option String) (now : Int) (fresh : String) :
    Except String String × DB :=
  match db.workflows.find? (fun x => x.id == workflow_id) with
  | none => (Except.error "Workflow not found", db)
  | some w =>
      if isFalsyStr w.n8n_workflow_id then
        (Except.error "Workflow not deployed to n8n", db)
      else
        match engine with
        | none => (Except.error "Failed to execute n8n workflow", db)
        | some n8n_execution_id =>
            let exec : ExecRecord :=
              { id := fresh
                workflow_id := workflow_id
                user_id := w.user_id
                status := ExecutionStatus.running
                trigger_data := trigger_data
                started_at := now
                n8n_execution_id := some n8n_execution_id }
            (Except.ok fresh,
             { db with workflow_executions := db.workflow_executions ++ [exec] })

/-- `WorkflowService.execute_workflow` (`workflow_service.py` lines 194-206):
loads the workflow by `(id, user_id)`, raises `Workflow is not active`
unless `status == active`, then dispatches via `n8n_execute_workflow`. -/
def execute_workflow (db : DB) (workflow_id user_id : String)
    (trigger_data : String) (engine : Option String) (now : Int)
    (fresh : String) : Except String String × DB :=
  match find_workflow db workflow_id user_id with
  | none => (Except.error "Workflow not found", db)
  | some w =>
      if w.status == WorkflowStatus.active then
        n8n_execute_workflow db workflow_id trigger_data engine now fresh
      else
        (Except.error "Workflow is not active", db)

/-- `WorkflowService.pause_workflow` (`workflow_service.py` lines 236-248):
unconditionally sets status `paused` on the matching workflow. -/
def pause_workflow (db : DB) (workflow_id user_id : String) (now : Int) :
    Bool × DB :=
  let r := updateFirst (fun x => x.id == workflow_id && x.user_id == user_id)
    (fun x => { x with status := WorkflowStatus.paused, updated_at := now })
    db.workflows
  (r.1, { db with workflows := r.2 })

/-- `WorkflowService.resume_workflow` (`workflow_service.py` lines 250-262):
unconditionally sets status `active` on the matching workflow — there is no
precondition on the previous status and no deployment check. -/
def resume_workflow (db : DB) (workflow_id user_id : String) (now : Int) :
    Bool × DB :=
  let r := updateFirst (fun x => x.id == workflow_id && x.user_id == user_id)
    (fun x => { x with status := WorkflowStatus.active, updated_at := now })
    db.workflows
  (r.1, { db with workflows := r.2 })

/-- `WorkflowService.delete_workflow` (`workflow_service.py` lines 264-283):
if the workflow exists, best-effort engine deletion (`try ... except: pass` —
the `engineDeleteFails` flag therefore has no effect on the result), then
`delete_many` of its executions and `delete_one` of the workflow. -/
def delete_workflow (db : DB) (workflow_id user_id : String)
    (engineDeleteFails : Bool) : Bool × DB :=
  match find_workflow db workflow_id user_id with
  | none => (false, db)
  | some _ =>
      let execs := db.workflow_executions.filter
        (fun e => !(e.workflow_id == workflow_id))
      let r := removeFirst (fun x => x.id == workflow_id && x.user_id == user_id)
        db.workflows
      (r.1, { workflows := r.2, workflow_executions := execs })

/-! ### Derived views and spec-side comparison definitions -/

/-- The connections dictionary of a linear chain through the given node
names, in order: `[a, b, c]` becomes `a → b → c`. Used to state what shape
the translator's `connections` take. -/
def mkChain : List String → Connections
  | a :: b :: rest => (a, [b]) :: mkChain (b :: rest)
  | _ => []

/-- The list of step nodes emitted for the given steps starting at the given
`enumerate` index. -/
def stepNodes : List WorkflowStep → Nat → List N8NNode
  | [], _ => []
  | s :: rest, i => create_step_node s i :: stepNodes rest (i + 1)

/-- Insertion into a list of steps kept sorted by ascending `order`. -/
def insertByOrder (s : WorkflowStep) : List WorkflowStep → List WorkflowStep
  | [] => [s]
  | t :: rest =>
      if s.order ≤ t.order then s :: t :: rest
      else t :: insertByOrder s rest

/-- The steps sorted by ascending `order` (stable insertion sort). -/
def sortByOrder : List WorkflowStep → List WorkflowStep
  | [] => []
  | s :: rest => insertByOrder s (sortByOrder rest)

/-- The node-name chain that the spec's sentence predicts for the
translator: the trigger node followed by the step names in ascending
`WorkflowStep.order`. Written from the spec's words, for comparison with
`convert_to_n8n_format`. -/
def specAscendingChain (w : Workflow) : List String :=
  (create_trigger_node w.trigger_type w.trigger_config).name ::
    (sortByOrder w.steps).map (fun s => s.name)

/-- The invalidity conditions of the spec's step validator (`order`
negative, `timeoutSeconds <= 0`, `onError` outside the enumerated set, or
`integrationAction` without an `integrationReference`). Written from the
spec's words, for comparison with the source, which has no validator. -/
def specInvalidStep (s : WorkflowStep) : Bool :=
  (s.order < 0) || (s.timeout_seconds ≤ 0) ||
  !(["stop", "continue", "retry"].contains s.on_error) ||
  (s.action_type == ActionType.integration_action && s.integration_id.isNone)

/-- The spec's step-order invariant, "`order` unique within a workflow and
dense from 0": each of the positions `0 .. n-1` is taken by exactly one of
the `n` steps (equivalently, the multiset of orders is `{0, ..., n-1}`). -/
def denseUniqueOrders (steps : List WorkflowStep) : Bool :=
  (List.range steps.length).all
    (fun k => steps.countP (fun s => s.order == (k : Int)) == 1)

/-! ### Concrete fixtures -/

/-- A two-step workflow whose step list is not sorted by `order`: the step
named "A" (order 1) precedes the step named "B" (order 0) in the list. -/
def wfBA : Workflow :=
  { id := "w1"
    user_id := "u1"
    team_id := "t1"
    name := "wf"
    trigger_type := TriggerType.manual
    steps :=
      [{ id := "sa", name := "A", action_type := ActionType.api_call, order := 1 },
       { id := "sb", name := "B", action_type := ActionType.api_call, order := 0 }] }

/-- The claim's example workflow: steps named A, B, C with orders 0, 1, 2
(in list positions 0, 1, 2, as `add_workflow_step` produces). -/
def wfABC : Workflow :=
  { id := "w2"
    user_id := "u1"
    team_id := "t1"
    name := "wf-abc"
    trigger_type := TriggerType.manual
    steps :=
      [{ id := "sa", name := "A", action_type := ActionType.api_call, order := 0 },
       { id := "sb", name := "B", action_type := ActionType.ai_process, order := 1 },
       { id := "sc", name := "C", action_type := ActionType.data_transform, order := 2 }] }

/-- A dispatched execution record: running, engine id present. -/
def execRun : ExecRecord :=
  { id := "e1"
    workflow_id := "w1"
    user_id := "u1"
    status := ExecutionStatus.running
    started_at := 100
    n8n_execution_id := some "n-7" }

/-- An engine answer reporting terminal success finished at `145`
(45 seconds after `execRun.started_at = 100`). -/
def respDone : N8NExecutionResp :=
  { status := "success", data := "out", error := "", finishedAt := some 145 }

/-- An engine answer reporting terminal success with no `finishedAt`. -/
def respNoFinish : N8NExecutionResp :=
  { status := "success", data := "out", error := "" }

/-- An execution record that was never given an engine execution id,
still in its dispatch status `running`. -/
def execNoId : ExecRecord :=
  { id := "e2"
    workflow_id := "w1"
    user_id := "u1"
    status := ExecutionStatus.running
    started_at := 100 }

/-- A deployed but paused workflow. -/
def wfPaused : Workflow :=
  { id := "w3"
    user_id := "u1"
    team_id := "t1"
    name := "wf-paused"
    trigger_type := TriggerType.manual
    n8n_workflow_id := some "n8n-3"
    status := WorkflowStatus.paused }

/-- A database holding only the paused workflow. -/
def dbPaused : DB := { workflows := [wfPaused] }

/-- A freshly created draft workflow, never deployed. -/
def wfDraft : Workflow :=
  { id := "w4"
    user_id := "u1"
    team_id := "t1"
    name := "wf-draft"
    trigger_type := TriggerType.manual }

/-- A database holding only the draft workflow. -/
def dbDraft : DB := { workflows := [wfDraft] }

/-- A database for the deletion scenario: the draft workflow `w4` with two
of its executions and one execution of another workflow. -/
def dbDel : DB :=
  { workflows := [wfDraft]
    workflow_executions :=
      [{ id := "x1", workflow_id := "w4", user_id := "u1",
         status := ExecutionStatus.success, started_at := 1 },
       { id := "x2", workflow_id := "w4", user_id := "u1",
         status := ExecutionStatus.running, started_at := 2 },
       { id := "x3", workflow_id := "w9", user_id := "u1",
         status := ExecutionStatus.running, started_at := 3 }] }

/-- A step violating every condition of the spec's validator at once:
negative order, non-positive timeout, `on_error` outside the enumerated
set, and an integration action without an integration reference. -/
def badStep : WorkflowStep :=
  { id := "sx"
    name := "X"
    action_type := ActionType.integration_action
    integration_id := none
    timeout_seconds := -1
    on_error := "explode"
    order := -2 }

/-- The workflow `w4` with three steps appended by `add_workflow_step`:
orders 0, 1, 2 in list positions 0, 1, 2. -/
def wfSteps : Workflow :=
  { wfDraft with steps :=
      [{ id := "s0", name := "S0", action_type := ActionType.api_call, order := 0 },
       { id := "s1", name := "S1", action_type := ActionType.api_call, order := 1 },
       { id := "s2", name := "S2", action_type := ActionType.api_call, order := 2 }] }

/-- A database holding only `wfSteps`. -/
def dbSteps : DB := { workflows := [wfSteps] }

/-- An ordinary step, as submitted to `add_workflow_step`. -/
def plainStep : WorkflowStep :=
  { id := "sp", name := "P", action_type := ActionType.api_call }

/-! ### Helper lemmas -/

/-- Every branch of `_create_step_node` names the node after the step. -/
theorem create_step_node_name (s : WorkflowStep) (i : Nat) :
    (create_step_node s i).name = s.name := by
  cases s.action_type <;>
    simp only [create_step_node, create_integration_node] <;>
    (repeat' split) <;> rfl

/-- Adding a connection under a source name that is not yet a key appends a
new singleton entry. -/
theorem addConn_of_not_key (conns : Connections) (src dst : String)
    (h : src ∉ conns.map Prod.fst) :
    addConn conns src dst = conns ++ [(src, [dst])] := by
  induction conns with
  | nil => rfl
  | cons p rest ih =>
      obtain ⟨k, ds⟩ := p
      simp only [List.map_cons, List.mem_cons, not_or] at h
      simp only [addConn]
      rw [if_neg, ih h.2, List.cons_append]
      intro hk
      exact h.1 (by simpa [eq_comm] using beq_iff_eq.mp hk)

/-- The node list built by the translator loop: the accumulator followed by
one step node per step, indexed from `i`. -/
theorem buildChain_fst (steps : List WorkflowStep) :
    ∀ (i : Nat) (prev : String) (nodes : List N8NNode) (conns : Connections),
    (buildChain steps i prev nodes conns).1 = nodes ++ stepNodes steps i := by
  induction steps with
  | nil => intro i prev nodes conns; simp [buildChain, stepNodes]
  | cons s rest ih =>
      intro i prev nodes conns
      simp [buildChain, stepNodes, ih, List.append_assoc]

/-- The connections built by the translator loop: as long as no involved
name is already a key and the names are distinct, the loop appends exactly
the linear chain `prev → step₁ → step₂ → ...` in list order. -/
theorem buildChain_snd (steps : List WorkflowStep) :
    ∀ (prev : String) (i : Nat) (nodes : List N8NNode) (conns : Connections),
    (∀ x ∈ prev :: steps.map (fun s => s.name), x ∉ conns.map Prod.fst) →
    (prev :: steps.map (fun s => s.name)).Nodup →
    (buildChain steps i prev nodes conns).2 =
      conns ++ mkChain (prev :: steps.map (fun s => s.name)) := by
  induction steps with
  | nil => intro prev i nodes conns _ _; simp [buildChain, mkChain]
  | cons s rest ih =>
      intro prev i nodes conns hfresh hnd
      have hfresh' : ∀ x ∈ s.name :: rest.map (fun s => s.name),
          x ∉ (conns ++ [(prev, [s.name])]).map Prod.fst := by
        intro x hx
        simp only [List.map_append, List.map_cons, List.map_nil,
          List.mem_append, List.mem_cons, List.not_mem_nil, or_false, not_or]
        refine ⟨?_, ?_⟩
        · exact hfresh x (by
            simp only [List.map_cons, List.mem_cons] at hx ⊢
            exact Or.inr hx)
        · intro hxp
          have hp : prev ∉ s.name :: rest.map (fun s => s.name) :=
            (List.nodup_cons.mp hnd).1
          exact hp (hxp ▸ hx)
      have hnd' : (s.name :: rest.map (fun s => s.name)).Nodup := by
        have := (List.nodup_cons.mp hnd).2
        simpa using this
      simp only [buildChain]
      rw [create_step_node_name s i]
      rw [addConn_of_not_key conns prev s.name
        (hfresh prev (List.mem_cons_self _ _))]
      rw [ih s.name (i + 1) (nodes ++ [create_step_node s i])
        (conns ++ [(prev, [s.name])]) hfresh' hnd']
      simp [mkChain, List.append_assoc]

/-- `update_one` then `find_one` on the same filter: the first match is
rewritten in place, so the same query returns the rewritten document,
provided the rewrite keeps the document matching the filter. -/
theorem find?_updateFirst (p : Workflow → Bool) (f : Workflow → Workflow)
    (l : List Workflow) (w : Workflow) (hw : l.find? p = some w)
    (hpf : p (f w) = true) :
    ((updateFirst p f l).2).find? p = some (f w) := by
  induction l with
  | nil => simp at hw
  | cons x rest ih =>
      by_cases hx : p x = true
      · have hxw : x = w := by
          have := List.find?_cons_of_pos (p := p) rest hx
          rw [this] at hw
          exact Option.some.inj hw
        subst hxw
        simp [updateFirst, hx, List.find?_cons_of_pos _ hpf]
      · have hw' : rest.find? p = some w := by
          have := List.find?_cons_of_neg (p := p) rest hx
          rwa [this] at hw
        simp [updateFirst, hx, List.find?_cons_of_neg _ hx, ih hw']

/-- `update_one` reports a match whenever `find_one` on the same filter
finds a document. -/
theorem updateFirst_found (p : Workflow → Bool) (f : Workflow → Workflow)
    (l : List Workflow) (w : Workflow) (hw : l.find? p = some w) :
    (updateFirst p f l).1 = true := by
  induction l with
  | nil => simp at hw
  | cons x rest ih =>
      by_cases hx : p x = true
      · simp [updateFirst, hx]
      · have hw' : rest.find? p = some w := by
          have := List.find?_cons_of_neg (p := p) rest hx
          rwa [this] at hw
        simp [updateFirst, hx, ih hw']

/-- `delete_one` reports a deletion whenever `find_one` on the same filter
finds a document. -/
theorem removeFirst_found (p : Workflow → Bool) (l : List Workflow)
    (w : Workflow) (hw : l.find? p = some w) :
    (removeFirst p l).1 = true := by
  induction l with
  | nil => simp at hw
  | cons x rest ih =>
      by_cases hx : p x = true
      · simp [removeFirst, hx]
      · have hw' : rest.find? p = some w := by
          have := List.find?_cons_of_neg (p := p) rest hx
          rwa [this] at hw
        simp [removeFirst, hx, ih hw']

/-- After `$pull`ing every execution of a workflow, none remain. -/
theorem filter_pull_all (wid : String) (l : List ExecRecord) :
    (l.filter (fun e => !(e.workflow_id == wid))).filter
      (fun e => e.workflow_id == wid) = [] := by
  induction l with
  | nil => rfl
  | cons x rest ih =>
      by_cases hx : (x.workflow_id == wid) = true
      · simp [List.filter_cons, hx, ih]
      · simp [List.filter_cons, hx, ih]

/-- A step list whose `order` values are positionally `0, 1, ..., n-1`
satisfies the unique-and-dense-from-0 invariant. -/
theorem denseUniqueOrders_of_range (l : List WorkflowStep)
    (h : l.map (fun st => st.order) = (List.range l.length).map Int.ofNat) :
    denseUniqueOrders l = true := by
  unfold denseUniqueOrders
  rw [List.all_eq_true]
  intro k hk
  have hk' : k < l.length := List.mem_range.mp hk
  have hc : l.countP (fun st => st.order == (k : Int)) =
      (l.map (fun st => st.order)).countP (fun o => o == (k : Int)) := by
    rw [List.countP_map]
    rfl
  rw [hc, h, List.countP_map]
  have hpred : ((fun o => o == (k : Int)) ∘ Int.ofNat) =
      (fun j : Nat => j == k) := by
    funext j
    by_cases hj : j = k
    · simp [hj]
    · have h1 : (Int.ofNat j == (k : Int)) = false :=
        beq_eq_false_iff_ne.mpr (fun hh => hj (Int.ofNat.inj hh))
      have h2 : (j == k) = false := beq_eq_false_iff_ne.mpr hj
      simp only [Function.comp_apply, h1, h2]
  rw [hpred]
  have hcount : (List.range l.length).countP (fun j : Nat => j == k) =
      (List.range l.length).count k := rfl
  rw [hcount,
    List.count_eq_one_of_mem (List.nodup_range _) (List.mem_range.mpr hk')]
  rfl

/-! ### Claim theorems -/

/-- C1 (counterexample): the translator does not chain by ascending
`WorkflowStep.order`. For the workflow whose step list is A (order 1) then
B (order 0), the emitted connections are trigger→A→B (list order), while a
chain following ascending `order` would be trigger→B→A. -/
theorem translator_ignores_order_counterexample :
    (convert_to_n8n_format wfBA).connections =
      [("Manual Trigger", ["A"]), ("A", ["B"])]
    ∧ specAscendingChain wfBA = ["Manual Trigger", "B", "A"]
    ∧ (convert_to_n8n_format wfBA).connections ≠
        mkChain (specAscendingChain wfBA) := by
  refine ⟨rfl, rfl, ?_⟩
  decide

/-- C1 (amended): the translator emits the trigger node followed by one
execution node per step, chained linearly in the order the steps appear in
the workflow's step list (it does not sort by `order`); provided the node
names are distinct, the connections are exactly the linear chain through
trigger and step names in list order. -/
theorem translator_chains_in_list_order (w : Workflow)
    (hnd : ((create_trigger_node w.trigger_type w.trigger_config).name ::
        w.steps.map (fun s => s.name)).Nodup) :
    (convert_to_n8n_format w).nodes =
      create_trigger_node w.trigger_type w.trigger_config :: stepNodes w.steps 0
    ∧ (convert_to_n8n_format w).connections =
      mkChain ((create_trigger_node w.trigger_type w.trigger_config).name ::
        w.steps.map (fun s => s.name)) := by
  constructor
  · show (buildChain w.steps 0 _ _ []).1 = _
    rw [buildChain_fst]
    rfl
  · show (buildChain w.steps 0 _ _ []).2 = _
    rw [buildChain_snd w.steps _ 0 _ [] (by intro x _; simp) hnd]
    rfl

/-- C1 (witness): the claim's own example — steps named A, B, C with orders
0, 1, 2 appended in that list order — yields trigger→A→B→C. -/
theorem translator_chains_in_list_order_witness :
    ((create_trigger_node wfABC.trigger_type wfABC.trigger_config).name ::
        wfABC.steps.map (fun s => s.name)).Nodup
    ∧ (convert_to_n8n_format wfABC).connections =
        [("Manual Trigger", ["A"]), ("A", ["B"]), ("B", ["C"])] :=
  ⟨by decide, by
    rw [(translator_chains_in_list_order wfABC (by decide)).2]
    rfl⟩

/-- C2: reconciling an execution a second time against the same engine
answer leaves the stored record — in particular `completed_at` and
`duration_seconds` — unchanged; once the first reconciliation has written
the terminal snapshot, repeating it is a no-op on the stored state. -/
theorem get_execution_status_idempotent (e : ExecRecord) (f : FetchResult)
    (hterm : isTerminal (get_execution_status e f).1.status = true) :
    (get_execution_status (get_execution_status e f).1 f).1 =
      (get_execution_status e f).1
    ∧ (get_execution_status (get_execution_status e f).1 f).1.completed_at =
      (get_execution_status e f).1.completed_at
    ∧ (get_execution_status (get_execution_status e f).1 f).1.duration_seconds =
      (get_execution_status e f).1.duration_seconds := by
  have key : (get_execution_status (get_execution_status e f).1 f).1 =
      (get_execution_status e f).1 := by
    by_cases hid : isFalsyStr e.n8n_execution_id = true
    · simp [get_execution_status, hid]
    · cases f with
      | err m => simp [get_execution_status, hid]
      | ok r =>
          have hpres : (applyReconcile e r).n8n_execution_id =
              e.n8n_execution_id := by
            cases hr : r.finishedAt <;> simp [applyReconcile, hr]
          have hid' : isFalsyStr (applyReconcile e r).n8n_execution_id = false := by
            rw [hpres]
            exact Bool.not_eq_true _ ▸ (by simpa using hid)
          simp only [get_execution_status, hid', Bool.false_eq_true, if_false,
            (by simpa using hid : isFalsyStr e.n8n_execution_id = false)]
          cases hr : r.finishedAt <;> simp [applyReconcile, hr]
  exact ⟨key, by rw [key], by rw [key]⟩

/-- C2 (witness): a running execution reconciled to terminal `success`
(finished at 145); a second reconciliation against the same engine answer
leaves the stored record unchanged. -/
theorem get_execution_status_idempotent_witness :
    isTerminal (get_execution_status execRun (FetchResult.ok respDone)).1.status = true
    ∧ (get_execution_status
        (get_execution_status execRun (FetchResult.ok respDone)).1
        (FetchResult.ok respDone)).1 =
      (get_execution_status execRun (FetchResult.ok respDone)).1 :=
  ⟨by decide,
   (get_execution_status_idempotent execRun (FetchResult.ok respDone) (by decide)).1⟩

/-- C3: `execute_workflow` on a workflow whose status is not `active` fails
with the `Workflow is not active` error and leaves the database — in
particular the execution records — unchanged; a success (which is the only
path that inserts an execution record) implies the workflow was `active`. -/
theorem execute_workflow_requires_active (db : DB)
    (workflow_id user_id trigger_data : String) (engine : Option String)
    (now : Int) (fresh : String) (w : Workflow)
    (hfind : find_workflow db workflow_id user_id = some w) :
    (w.status ≠ WorkflowStatus.active →
      execute_workflow db workflow_id user_id trigger_data engine now fresh =
        (Except.error "Workflow is not active", db))
    ∧ (∀ r db',
        execute_workflow db workflow_id user_id trigger_data engine now fresh =
          (Except.ok r, db') → w.status = WorkflowStatus.active) := by
  constructor
  · intro hna
    have hb : (w.status == WorkflowStatus.active) = false :=
      beq_eq_false_iff_ne.mpr hna
    simp [execute_workflow, hfind, hb]
  · intro r db' heq
    by_cases hs : w.status = WorkflowStatus.active
    · exact hs
    · exfalso
      have hb : (w.status == WorkflowStatus.active) = false :=
        beq_eq_false_iff_ne.mpr hs
      rw [execute_workflow] at heq
      rw [hfind] at heq
      simp [hb] at heq

/-- C3 (witness): executing the paused workflow fails with
`Workflow is not active` and the database is unchanged. -/
theorem execute_workflow_requires_active_witness :
    wfPaused.status ≠ WorkflowStatus.active
    ∧ execute_workflow dbPaused "w3" "u1" "" (some "nx") 7 "f1" =
        (Except.error "Workflow is not active", dbPaused) :=
  ⟨by decide,
   (execute_workflow_requires_active dbPaused "w3" "u1" "" (some "nx") 7 "f1"
     wfPaused (by decide)).1 (by decide)⟩

/-- C4 (counterexample): a workflow can become `active` without any deploy.
The draft workflow `wfDraft` was never deployed (`n8n_workflow_id = none`),
yet `resume_workflow` — which has no precondition — flips its status to
`active`, leaving no engine workflow id stored. -/
theorem resume_activates_undeployed_counterexample :
    wfDraft.status = WorkflowStatus.draft
    ∧ wfDraft.n8n_workflow_id = none
    ∧ ((resume_workflow dbDraft "w4" "u1" 5).2.workflows.map
        (fun x => (x.status, x.n8n_workflow_id))) =
      [(WorkflowStatus.active, none)] :=
  ⟨rfl, rfl, rfl⟩

/-- C4 (amended): a Workflow is created in `draft`; a successful deploy sets
it `active` and stores the engine workflow id; a failed deploy sets it to
`error` and propagates the failure; `pause` sets `paused` and `resume` sets
`active` — but `resume` and `update_workflow`'s `status` field have no
precondition, so `active` is also reachable without a successful deploy. -/
theorem workflow_status_transitions (db : DB)
    (workflow_id user_id team_id fresh : String) (c : WorkflowCreate)
    (now : Int) (nid : String) (u : WorkflowUpdate) (w : Workflow)
    (hfind : find_workflow db workflow_id user_id = some w)
    (hfid : db.workflows.find? (fun x => x.id == workflow_id) = some w) :
    (create_workflow db user_id team_id c fresh now).1.status =
      WorkflowStatus.draft
    ∧ (w.status ≠ WorkflowStatus.active →
        (deploy_workflow db workflow_id user_id (some nid) now).1 =
          Except.ok nid
        ∧ ((deploy_workflow db workflow_id user_id (some nid) now).2.workflows.find?
            (fun x => x.id == workflow_id)) =
          some { w with n8n_workflow_id := some nid,
                        status := WorkflowStatus.active, updated_at := now })
    ∧ (w.status ≠ WorkflowStatus.active →
        (deploy_workflow db workflow_id user_id none now).1 =
          Except.error "Failed to create n8n workflow"
        ∧ ((deploy_workflow db workflow_id user_id none now).2.workflows.find?
            (fun x => x.id == workflow_id)) =
          some { w with status := WorkflowStatus.error, updated_at := now })
    ∧ find_workflow (resume_workflow db workflow_id user_id now).2
        workflow_id user_id =
      some { w with status := WorkflowStatus.active, updated_at := now }
    ∧ find_workflow (pause_workflow db workflow_id user_id now).2
        workflow_id user_id =
      some { w with status := WorkflowStatus.paused, updated_at := now }
    ∧ find_workflow (update_workflow db workflow_id user_id u now).2
        workflow_id user_id =
      some (applyWorkflowUpdate u now w) := by
  have hfind' : db.workflows.find?
      (fun x => x.id == workflow_id && x.user_id == user_id) = some w := hfind
  have hpw := List.find?_some hfind'
  have hidw : (w.id == workflow_id) = true := by
    have := hpw
    simp only [Bool.and_eq_true] at this
    exact this.1
  refine ⟨rfl, ?_, ?_, ?_, ?_, ?_⟩
  · intro hna
    have hb : (w.status == WorkflowStatus.active) = false :=
      beq_eq_false_iff_ne.mpr hna
    constructor
    · simp [deploy_workflow, hfind, hb]
    · simp only [deploy_workflow, hfind, hb, Bool.false_eq_true, if_false]
      exact find?_updateFirst _ _ _ _ hfid (by simpa using hidw)
  · intro hna
    have hb : (w.status == WorkflowStatus.active) = false :=
      beq_eq_false_iff_ne.mpr hna
    constructor
    · simp [deploy_workflow, hfind, hb]
    · simp only [deploy_workflow, hfind, hb, Bool.false_eq_true, if_false]
      exact find?_updateFirst _ _ _ _ hfid (by simpa using hidw)
  · exact find?_updateFirst _ _ _ _ hfind (by simpa using hpw)
  · exact find?_updateFirst _ _ _ _ hfind (by simpa using hpw)
  · have hfound := updateFirst_found
      (fun x => x.id == workflow_id && x.user_id == user_id)
      (applyWorkflowUpdate u now) db.workflows w hfind
    simp only [update_workflow, hfound, if_true]
    exact find?_updateFirst _ _ _ _ hfind (by simpa [applyWorkflowUpdate] using hpw)

/-- C4 (witness): creation yields `draft`; resuming the never-deployed draft
workflow makes it `active`. -/
theorem workflow_status_transitions_witness :
    (create_workflow dbDraft "u1" "t1"
        { name := "n", trigger_type := TriggerType.manual } "f9" 5).1.status =
      WorkflowStatus.draft
    ∧ find_workflow (resume_workflow dbDraft "w4" "u1" 5).2 "w4" "u1" =
        some { wfDraft with status := WorkflowStatus.active, updated_at := 5 } :=
  ⟨(workflow_status_transitions dbDraft "w4" "u1" "t1" "f9"
      { name := "n", trigger_type := TriggerType.manual } 5 "N1" {} wfDraft
      (by decide) (by decide)).1,
   (workflow_status_transitions dbDraft "w4" "u1" "t1" "f9"
      { name := "n", trigger_type := TriggerType.manual } 5 "N1" {} wfDraft
      (by decide) (by decide)).2.2.2.1⟩

/-- C5: the engine-status translation is the fixed table running→running,
success→success, failed→failed, canceled→cancelled, waiting→pending, and
every string outside the table maps to `failed` (fail-closed). -/
theorem status_map_table (s : String) :
    statusMap "running" = ExecutionStatus.running
    ∧ statusMap "success" = ExecutionStatus.success
    ∧ statusMap "failed" = ExecutionStatus.failed
    ∧ statusMap "canceled" = ExecutionStatus.cancelled
    ∧ statusMap "waiting" = ExecutionStatus.pending
    ∧ (s ∉ ["running", "success", "failed", "canceled", "waiting"] →
        statusMap s = ExecutionStatus.failed) := by
  refine ⟨rfl, rfl, rfl, rfl, rfl, fun hs => ?_⟩
  simp only [List.mem_cons, List.not_mem_nil, or_false, not_or] at hs
  obtain ⟨h1, h2, h3, h4, h5⟩ := hs
  have e1 : ("running" == s) = false := beq_eq_false_iff_ne.mpr (Ne.symm h1)
  have e2 : ("success" == s) = false := beq_eq_false_iff_ne.mpr (Ne.symm h2)
  have e3 : ("failed" == s) = false := beq_eq_false_iff_ne.mpr (Ne.symm h3)
  have e4 : ("canceled" == s) = false := beq_eq_false_iff_ne.mpr (Ne.symm h4)
  have e5 : ("waiting" == s) = false := beq_eq_false_iff_ne.mpr (Ne.symm h5)
  simp [statusMap, status_mapping, List.find?, e1, e2, e3, e4, e5]

/-- C5 (witness): the unrecognized engine status `crashed` maps to
`failed`. -/
theorem status_map_table_witness :
    "crashed" ∉ ["running", "success", "failed", "canceled", "waiting"]
    ∧ statusMap "crashed" = ExecutionStatus.failed :=
  ⟨by decide, (status_map_table "crashed").2.2.2.2.2 (by decide)⟩

/-- C6 (counterexample): reconciling an execution record with no stored
engine execution id does not report `failed`: it reports the execution's
stored status (here `running`) together with the error message
`No n8n execution ID`, and leaves the record untouched. -/
theorem reconcile_missing_id_counterexample :
    (get_execution_status execNoId (FetchResult.err "boom")).2 =
      StatusReport.noEngineId ExecutionStatus.running "No n8n execution ID"
    ∧ (get_execution_status execNoId (FetchResult.err "boom")).1 = execNoId
    ∧ ExecutionStatus.running ≠ ExecutionStatus.failed :=
  ⟨rfl, rfl, by decide⟩

/-- C6 (amended): when reconcile finds no stored engine execution id, the
execution is reported with its stored status — unchanged, not forced to
`failed` — together with the descriptive error `No n8n execution ID`, and
the stored record is not modified. -/
theorem reconcile_missing_id (e : ExecRecord) (f : FetchResult)
    (h : isFalsyStr e.n8n_execution_id = true) :
    get_execution_status e f =
      (e, StatusReport.noEngineId e.status "No n8n execution ID") := by
  simp [get_execution_status, h]

/-- C6 (witness): the id-less running record is reported as `running` with
the descriptive error. -/
theorem reconcile_missing_id_witness :
    isFalsyStr execNoId.n8n_execution_id = true
    ∧ get_execution_status execNoId (FetchResult.err "boom") =
        (execNoId, StatusReport.noEngineId ExecutionStatus.running
          "No n8n execution ID") :=
  ⟨rfl, reconcile_missing_id execNoId (FetchResult.err "boom") rfl⟩

/-- C7 (counterexample): there is no `now` fallback. When the engine reports
the terminal status `success` but no `finishedAt`, reconciliation leaves
both `completed_at` and `duration_seconds` unset instead of computing the
duration against the current time. -/
theorem duration_no_now_fallback_counterexample :
    statusMap respNoFinish.status = ExecutionStatus.success
    ∧ isTerminal
        (get_execution_status execRun (FetchResult.ok respNoFinish)).1.status = true
    ∧ (get_execution_status execRun (FetchResult.ok respNoFinish)).1.duration_seconds
        = none
    ∧ (get_execution_status execRun (FetchResult.ok respNoFinish)).1.completed_at
        = none := by
  refine ⟨rfl, rfl, ?_, ?_⟩ <;> rfl

/-- C7 (amended): when the engine reports `finishedAt`, reconciliation
writes `completed_at := finishedAt` and `duration_seconds := finishedAt -
started_at` (so a finish 45 seconds after `started_at` yields 45); when the
engine reports no finish time, `completed_at` and `duration_seconds` are
left unchanged — there is no `now` fallback. -/
theorem duration_from_engine_finish (e : ExecRecord) (r : N8NExecutionResp)
    (hid : isFalsyStr e.n8n_execution_id = false) :
    (∀ fin, r.finishedAt = some fin →
      (get_execution_status e (FetchResult.ok r)).1.duration_seconds =
        some (fin - e.started_at)
      ∧ (get_execution_status e (FetchResult.ok r)).1.completed_at = some fin)
    ∧ (r.finishedAt = none →
      (get_execution_status e (FetchResult.ok r)).1.duration_seconds =
        e.duration_seconds
      ∧ (get_execution_status e (FetchResult.ok r)).1.completed_at =
        e.completed_at) := by
  constructor
  · intro fin hf
    constructor <;> simp [get_execution_status, hid, applyReconcile, hf]
  · intro hf
    constructor <;> simp [get_execution_status, hid, applyReconcile, hf]

/-- C7 (witness): `started_at = 100`, engine finish `145`: the recorded
duration is 45 seconds. -/
theorem duration_from_engine_finish_witness :
    (get_execution_status execRun (FetchResult.ok respDone)).1.duration_seconds =
      some 45 := by
  have h := ((duration_from_engine_finish execRun respDone rfl).1 145 rfl).1
  simpa using h

/-- C8: deleting an existing workflow removes every execution record whose
`workflow_id` references it and deletes the workflow itself, and the result
is identical whether or not the external-engine deletion call fails (the
engine failure is swallowed). -/
theorem delete_workflow_cascades (db : DB) (workflow_id user_id : String)
    (engineDeleteFails : Bool) (w : Workflow)
    (hfind : find_workflow db workflow_id user_id = some w) :
    ((delete_workflow db workflow_id user_id engineDeleteFails).2.workflow_executions.filter
        (fun e => e.workflow_id == workflow_id)) = []
    ∧ (delete_workflow db workflow_id user_id engineDeleteFails).1 = true
    ∧ delete_workflow db workflow_id user_id engineDeleteFails =
        delete_workflow db workflow_id user_id true := by
  have hfind' : db.workflows.find?
      (fun x => x.id == workflow_id && x.user_id == user_id) = some w := hfind
  refine ⟨?_, ?_, rfl⟩
  · simp [delete_workflow, hfind, filter_pull_all]
  · simp [delete_workflow, hfind, removeFirst_found _ _ _ hfind']

/-- C8 (witness): deleting `w4` (with the engine call failing) removes its
two executions and the workflow itself. -/
theorem delete_workflow_cascades_witness :
    find_workflow dbDel "w4" "u1" = some wfDraft
    ∧ ((delete_workflow dbDel "w4" "u1" true).2.workflow_executions.filter
        (fun e => e.workflow_id == "w4")) = []
    ∧ (delete_workflow dbDel "w4" "u1" true).1 = true :=
  ⟨by decide,
   (delete_workflow_cascades dbDel "w4" "u1" true wfDraft (by decide)).1,
   (delete_workflow_cascades dbDel "w4" "u1" true wfDraft (by decide)).2.1⟩

/-- C9 (counterexample): there is no step validation. `badStep` violates all
four of the spec validator's conditions at once (negative order,
non-positive timeout, `on_error` outside the enumerated set, integration
action without integration reference), yet `add_workflow_step` accepts it
and stores it (with `order` overwritten to the step count). -/
theorem no_step_validation_counterexample :
    specInvalidStep badStep = true
    ∧ (add_workflow_step dbDraft "w4" "u1" badStep 9).1 =
        Except.ok { badStep with order := 0 }
    ∧ find_workflow (add_workflow_step dbDraft "w4" "u1" badStep 9).2 "w4" "u1" =
        some { wfDraft with steps := [{ badStep with order := 0 }],
                            updated_at := 9 } := by
  refine ⟨rfl, ?_, ?_⟩ <;> rfl

/-- C9 (amended): the source performs no step validation: for any existing
workflow, `add_workflow_step` accepts every step — regardless of `order`,
`timeout_seconds`, `on_error` or `integration_id` — overwrites its `order`
with the current step count and appends it; the only failure is the missing
workflow. -/
theorem add_step_accepts_any_step (db : DB) (workflow_id user_id : String)
    (s : WorkflowStep) (now : Int) (w : Workflow)
    (hfind : find_workflow db workflow_id user_id = some w) :
    (add_workflow_step db workflow_id user_id s now).1 =
      Except.ok { s with order := (w.steps.length : Int) }
    ∧ find_workflow (add_workflow_step db workflow_id user_id s now).2
        workflow_id user_id =
      some { w with steps := w.steps ++ [{ s with order := (w.steps.length : Int) }],
                    updated_at := now } := by
  have hfind' : db.workflows.find?
      (fun x => x.id == workflow_id && x.user_id == user_id) = some w := hfind
  have hpw := List.find?_some hfind'
  constructor
  · simp [add_workflow_step, hfind]
  · simp only [add_workflow_step, find_workflow, hfind']
    apply find?_updateFirst _ _ _ w hfind'
    simpa using hpw

/-- C9 (witness): a plain step appended to the three-step workflow gets
order 3 and is stored unvalidated. -/
theorem add_step_accepts_any_step_witness :
    (add_workflow_step dbSteps "w4" "u1" plainStep 9).1 =
      Except.ok { plainStep with order := (wfSteps.steps.length : Int) }
    ∧ find_workflow (add_workflow_step dbSteps "w4" "u1" plainStep 9).2 "w4" "u1" =
        some { wfSteps with
          steps := wfSteps.steps ++
            [{ plainStep with order := (wfSteps.steps.length : Int) }],
          updated_at := 9 } :=
  ⟨(add_step_accepts_any_step dbSteps "w4" "u1" plainStep 9 wfSteps (by decide)).1,
   (add_step_accepts_any_step dbSteps "w4" "u1" plainStep 9 wfSteps (by decide)).2⟩

/-- C10 (counterexample): the unique-and-dense-from-0 order invariant is not
preserved by `remove_workflow_step`. Starting from steps with orders
0, 1, 2, removing the middle step leaves orders 0, 2 — not dense — because
the remaining steps are not reindexed. -/
theorem remove_step_breaks_density_counterexample :
    denseUniqueOrders wfSteps.steps = true
    ∧ ((remove_workflow_step dbSteps "w4" "u1" "s1" 9).2.workflows.map
        (fun x => x.steps.map (fun st => st.order))) = [[0, 2]]
    ∧ ((remove_workflow_step dbSteps "w4" "u1" "s1" 9).2.workflows.map
        (fun x => denseUniqueOrders x.steps)) = [false] := by
  refine ⟨?_, ?_, ?_⟩ <;> rfl

/-- C10 (amended): `add_workflow_step` always assigns the new step
`order = current step count`, and for a workflow whose step orders are
positionally `0..n-1` (as produced by building the workflow through
`add_workflow_step` alone) the appended list again has orders `0..n` and so
satisfies the unique-and-dense invariant; the invariant is not preserved by
`remove_workflow_step`, which does not reindex the remaining steps. -/
theorem add_step_preserves_dense_orders (db : DB) (workflow_id user_id : String)
    (s : WorkflowStep) (now : Int) (w : Workflow)
    (hfind : find_workflow db workflow_id user_id = some w)
    (hdense : w.steps.map (fun st => st.order) =
      (List.range w.steps.length).map Int.ofNat) :
    (add_workflow_step db workflow_id user_id s now).1 =
      Except.ok { s with order := (w.steps.length : Int) }
    ∧ ((w.steps ++ [{ s with order := (w.steps.length : Int) }]).map
        (fun st : WorkflowStep => st.order) =
      (List.range (w.steps.length + 1)).map Int.ofNat)
    ∧ denseUniqueOrders
        (w.steps ++ [{ s with order := (w.steps.length : Int) }]) = true := by
  have hmap : (w.steps ++ [{ s with order := (w.steps.length : Int) }]).map
      (fun st : WorkflowStep => st.order) =
      (List.range (w.steps.length + 1)).map Int.ofNat := by
    rw [List.map_append, hdense, List.range_succ, List.map_append]
    rfl
  refine ⟨?_, hmap, ?_⟩
  · simp [add_workflow_step, hfind]
  · apply denseUniqueOrders_of_range
    rw [hmap]
    simp

/-- C10 (witness): appending a step to the dense three-step workflow keeps
the orders dense (0, 1, 2, 3). -/
theorem add_step_preserves_dense_orders_witness :
    (wfSteps.steps.map (fun st => st.order) =
      (List.range wfSteps.steps.length).map Int.ofNat)
    ∧ denseUniqueOrders
        (wfSteps.steps ++ [{ plainStep with order := (wfSteps.steps.length : Int) }]) =
      true :=
  ⟨by decide,
   (add_step_preserves_dense_orders dbSteps "w4" "u1" plainStep 9 wfSteps
      (by decide) (by decide)).2.2⟩

end SuperAI
